import Mathlib

/-!
Shallow embedding of the symptom-analyzer conversation controller
(src/src/App.tsx) and proofs about its behaviour.

Conventions of the embedding:
* TypeScript `string | null` fields become `Option String`; `null`/`undefined`
  both map to `none` (the code only uses loose `== null` checks where the
  distinction would matter).
* JavaScript truthiness of an optional string (`if (s)`) is `strTruthy`:
  the value is non-null and non-empty.
* React state plus the mutable refs (`chatMode`, `conditionRef`, `apiUrlRef`)
  are collected into one `AppState` record; the async `sendMessage` handler is
  modelled as a state transformer parameterised by the transport outcome
  (success payload or failure), returning the new state and the request it
  issued, if any.
* `probability` is a JavaScript number; it is embedded as `Rat` and its
  template-literal rendering approximated by `toString`. No claim depends on
  the rendered digits.
-/

namespace SymptomAnalyzer

/-- JavaScript truthiness of an optional string: non-null and non-empty. -/
def strTruthy : Option String → Bool
  | some s => !(s == "")
  | none => false

/-- Whitespace for the embedding of `String.prototype.trim` (the common
whitespace characters; the full JS set also has exotic Unicode spaces no
claim depends on). -/
def isWsChar (c : Char) : Bool :=
  c == ' ' || c == '\n' || c == '\t' || c == '\r'

/-- JavaScript `s.trim()`: strip leading and trailing whitespace. -/
def jsTrim (s : String) : String :=
  String.mk (((s.data.dropWhile isWsChar).reverse.dropWhile isWsChar).reverse)

/-- Template-literal rendering of an optional string: an omitted value prints
as the text "undefined" (the TS interface declares `condition: string`, so the
code never guards the template with a fallback). -/
def optRender : Option String → String
  | some s => s
  | none => "undefined"

/-- Mirrors the TS `Diagnosis` interface (App.tsx lines 35-42). `condition` is
declared `string` there, but the code defends against its absence with
`|| "Unknown"` (line 239), so it is embedded as `Option String`. -/
structure Diagnosis where
  condition : Option String
  probability : Rat
  medical_tests : List String
  modern_medication : List String
  lifestyle_changes : List String
  precautions : List String
deriving Repr

/-- Mirrors the TS `ChatResponse` interface (App.tsx lines 43-48). -/
structure ChatResponse where
  question : Option String
  diagnosis : Option Diagnosis
  home_remedy : Option String
  diet_plan : Option String
deriving Repr

/-- The four branches of the response-classification chain
(App.tsx lines 227-248). -/
inductive ServerBranch where
  | questionBr
  | diagnosisBr
  | dietPlanBr
  | inconclusiveBr
deriving DecidableEq, Repr

/-- The classification chain of App.tsx lines 227-248:
`question !== null`, else `diagnosis && home_remedy`, else
`diagnosis == null && diet_plan`, else the advisory fallback. -/
def classify (r : ChatResponse) : ServerBranch :=
  if r.question.isSome then .questionBr
  else if r.diagnosis.isSome && strTruthy r.home_remedy then .diagnosisBr
  else if r.diagnosis.isNone && strTruthy r.diet_plan then .dietPlanBr
  else .inconclusiveBr

/-- Rendering of an array inside a JS template literal: comma-joined. -/
def joinArr (xs : List String) : String := String.intercalate "," xs

/-- Rendering of the probability percentage. JavaScript float formatting is
approximated by the Rat ToString instance; no claim depends on the digits. -/
def probabilityText (q : Rat) : String := toString q

/-- The diagnosis-branch bot text template (App.tsx lines 230-236). -/
def diagnosisText (d : Diagnosis) (homeRemedy : String) : String :=
  "🌡️ Condition: " ++ optRender d.condition ++
  "\nProbability: " ++ probabilityText (d.probability * 100) ++
  "%\n💉 Medical Tests:\n " ++ joinArr d.medical_tests ++
  "\n💊Medication:\n " ++ joinArr d.modern_medication ++
  "\n🏖️ Lifestyle Changes:\n " ++ joinArr d.lifestyle_changes ++
  "\n‼️Precautions:\n " ++ joinArr d.precautions ++
  "\n🌿 Home Remedy:\n " ++ homeRemedy

/-- The inconclusive advisory text (App.tsx line 247). -/
def inconclusiveText : String :=
  "Unable to determine the condition conclusively. Please consult a qualified doctor."

/-- The diet-plan branch bot text (App.tsx line 242). -/
def dietPlanText (plan : String) : String :=
  "🥗 Recommended Diet Plan:\n " ++ plan

/-- The fallback applied when storing the diagnosis condition
(App.tsx line 239): the template literal of `condition || "Unknown"`. -/
def condFallback : Option String → String
  | some s => if s == "" then "Unknown" else s
  | none => "Unknown"

example : classify ⟨some "q", none, none, none⟩ = .questionBr := by decide
example : classify ⟨none, some ⟨some "flu", 0, [], [], [], []⟩, some "rest", some "dp"⟩
    = .diagnosisBr := by decide
example : classify ⟨none, none, none, some "dp"⟩ = .dietPlanBr := by decide
example : classify ⟨none, some ⟨some "flu", 0, [], [], [], []⟩, none, some "dp"⟩
    = .inconclusiveBr := by decide

/-- A pending file attachment (the browser File object, reduced to the data
the controller consults). -/
structure FileAttachment where
  name : String
  mimeType : String
deriving DecidableEq, Repr

/-- Mirrors the TS `Message` interface (App.tsx lines 29-34). -/
structure Message where
  id : String
  text : String
  isUser : Bool
  timestamp : String
deriving DecidableEq, Repr

/-- All React state hooks plus the mutable refs of the `App` component
(App.tsx lines 54-69), collected into one record. `chatMode`, `condition` and
`apiUrl` embed the refs `chatMode.current`, `conditionRef.current` and
`apiUrlRef.current`; `fileInputValue` embeds `fileInputRef.current.value`. -/
structure AppState where
  messages : List Message
  input : String
  file : Option FileAttachment
  isRecording : Bool
  isLoading : Bool
  error : Option String
  isTyping : Bool
  sessionId : String
  showDietOption : Bool
  chatMode : String
  condition : String
  isFileDisabled : Bool
  apiUrl : String
  fileInputValue : String
deriving DecidableEq, Repr

/-- Endpoint configuration (App.tsx lines 72-73). -/
structure Config where
  diagUrl : String
  dietUrl : String
deriving DecidableEq, Repr

/-- One value of a multipart form field. -/
inductive FormValue where
  | fileV (f : FileAttachment)
  | strV (s : String)
deriving DecidableEq, Repr

/-- The outbound request assembled by `sendMessage`
(App.tsx lines 207-219): target URL, session header, ordered multipart
fields, and the 90-second axios timeout. -/
structure Request where
  url : String
  sessionId : String
  fields : List (String × FormValue)
  timeoutMs : Nat
deriving DecidableEq, Repr

/-- The fresh identifiers and timestamps a single `sendMessage` call draws
from the environment (uuidv4 and Date). -/
structure TurnIds where
  userMsgId : String
  userTs : String
  botMsgId : String
  botTs : String
deriving DecidableEq, Repr

/-- An axios failure as seen in the catch block (App.tsx lines 265-267):
whether it was a timeout, and `error.response?.data.detail` when a response
arrived (`none` = no response at all, e.g. timeout or network failure;
`some d` = a non-2xx response whose body optionally carried `detail`). -/
structure AxiosFailure where
  isTimeout : Bool
  responseDetail : Option (Option String)
deriving DecidableEq, Repr

/-- The resolution of the awaited `axios.post`: a parsed `ChatResponse`
payload or a failure. -/
inductive TransportOutcome where
  | success (resp : ChatResponse)
  | failure (e : AxiosFailure)

/-- The user-visible error text computed in the catch block
(App.tsx line 267): `error.response?.data.detail` with the generic fallback
text — the generic text whenever no response arrived, the
detail field is absent, or the detail is the empty string. -/
def failureMessage (e : AxiosFailure) : String :=
  match e.responseDetail with
  | some (some d) => if d == "" then "An error occurred. Please try again." else d
  | _ => "An error occurred. Please try again."

/-- The early-return guard of `sendMessage` (App.tsx line 184):
`(isLoading || (!input.trim() && !file)) && chatMode.current === "Diagnosis"`. -/
def guardRefuses (st : AppState) : Bool :=
  (st.isLoading || (jsTrim st.input == "" && st.file.isNone)) && st.chatMode == "Diagnosis"

/-- Overwrites the text of the last message in the log, as the typing
animation does via `updated[updated.length - 1]` (App.tsx lines 91-98). -/
def setLastText (text : String) : List Message → List Message
  | [] => []
  | [m] => [{ m with text := text }]
  | m :: rest => m :: setLastText text rest

/-- The response-parsing block of `sendMessage` (App.tsx lines 224-248):
computes `botText` and applies the branch side effects on `chatMode.current`
and `conditionRef.current`. The control flow mirrors the if/else chain: the
question branch fires on `question !== null` (with the fallback text for an
empty question), the diagnosis branch on truthy `diagnosis && home_remedy`,
the diet branch on `diagnosis == null && diet_plan`, else the advisory text. -/
def handleResponse (r : ChatResponse) (st : AppState) : String × AppState :=
  match r.question with
  | some q => (if q == "" then "No question received." else q, st)
  | none =>
    match r.diagnosis with
    | some d =>
      if strTruthy r.home_remedy then
        (diagnosisText d ((r.home_remedy).getD ""),
         { st with chatMode := "Diet", condition := condFallback d.condition })
      else
        (inconclusiveText, st)
    | none =>
      if strTruthy r.diet_plan then
        (dietPlanText ((r.diet_plan).getD ""),
         { st with chatMode := "Diagnosis", condition := "Unknown" })
      else
        (inconclusiveText, st)

/-- The full async `sendMessage` handler (App.tsx lines 183-273), as a state
transformer parameterised by the transport outcome. Returns the new state and
the request issued, `none` when the guard returned early. Notes kept faithful
to the source:
* the local `input` captured by the closure keeps its pre-`setInput`
  value, so the form data uses the original input text;
* the `chatMode.current === null` disjunct on line 197 is vacuous here
  because the ref is string-typed;
* the form fields are appended in source order: file, message, condition,
  each guarded by its truthiness check;
* on success the bot placeholder is appended, the awaited `typeMessage`
  leaves the last message holding the full `botText`, and the diet option is
  shown when `question === null && diagnosis` (home_remedy not consulted);
* the finally block always clears `isLoading`, the file state and the file
  input element value. -/
def sendMessage (cfg : Config) (ids : TurnIds) (outcome : TransportOutcome)
    (st : AppState) : AppState × Option Request :=
  if guardRefuses st then (st, none)
  else
    let input0 := st.input
    let st1 : AppState :=
      { st with isLoading := true, error := none,
                messages := st.messages ++ [⟨ids.userMsgId, input0, true, ids.userTs⟩],
                input := "" }
    let st2 : AppState :=
      if st1.chatMode == "Diagnosis" then
        { st1 with apiUrl := cfg.diagUrl, isFileDisabled := false }
      else if st1.chatMode == "Diet" then
        { st1 with apiUrl := cfg.dietUrl, isFileDisabled := true, showDietOption := false }
      else st1
    let fields : List (String × FormValue) :=
      (match st2.file with
       | some f => [("file", FormValue.fileV f)]
       | none => []) ++
      (if jsTrim input0 == "" then [] else [("message", FormValue.strV (jsTrim input0))]) ++
      (if st2.condition == "" then [] else [("condition", FormValue.strV st2.condition)])
    let req : Request := ⟨st2.apiUrl, st2.sessionId, fields, 90000⟩
    let st3 : AppState :=
      match outcome with
      | .success resp =>
        let parsed := handleResponse resp st2
        let stB : AppState :=
          { parsed.2 with
            messages := parsed.2.messages ++ [⟨ids.botMsgId, "", false, ids.botTs⟩] }
        let stC : AppState :=
          { stB with messages := setLastText parsed.1 stB.messages, isTyping := false }
        if resp.question.isNone && resp.diagnosis.isSome then
          { stC with showDietOption := true }
        else stC
      | .failure e => { st2 with error := some (failureMessage e) }
    ({ st3 with isLoading := false, file := none, fileInputValue := "" }, some req)

/-- The file-input change handler (App.tsx lines 172-174):
`if (e.target.files) setFile(e.target.files[0])`. An empty FileList is truthy
in JavaScript, so `files[0]` may be undefined; `List.head?` captures both. -/
def handleFileChange (files : Option (List FileAttachment)) (st : AppState) : AppState :=
  match files with
  | none => st
  | some fs => { st with file := fs.head? }

/-- The welcome text typed at mount (App.tsx lines 115-116). -/
def welcomeText : String :=
  "👋 Welcome to your personal Pocket Doctor. Let\x27s begin with your details like your name, age, and gender.\n💡 You can also type or speak in a language you are comfortable with.\n"

/-- The component state right after mount (App.tsx lines 54-75, 114-126):
empty input, no file, not loading, mode `Diagnosis`, condition `Unknown`,
the welcome placeholder message appended, and `apiUrlRef` defaulted to the
diagnosis URL. -/
def initState (cfg : Config) (sid ts : String) : AppState :=
  { messages := [⟨"welcome-msg", "", false, ts⟩]
    input := ""
    file := none
    isRecording := false
    isLoading := false
    error := none
    isTyping := false
    sessionId := sid
    showDietOption := false
    chatMode := "Diagnosis"
    condition := "Unknown"
    isFileDisabled := false
    apiUrl := cfg.diagUrl
    fileInputValue := "" }

/-- One user-visible event step of the controller: a submission resolving
with some transport outcome, editing the input box, a file selection, the
decline button of the diet prompt, a speech-recognition result or error
(App.tsx lines 141-150), toggling recording, or the mount animation writing
the welcome text. -/
inductive Step (cfg : Config) : AppState → AppState → Prop where
  | send (ids : TurnIds) (outcome : TransportOutcome) (st : AppState) :
      Step cfg st (sendMessage cfg ids outcome st).1
  | edit (s : String) (st : AppState) :
      Step cfg st { st with input := s }
  | fileChange (files : Option (List FileAttachment)) (st : AppState) :
      Step cfg st (handleFileChange files st)
  | declineDiet (st : AppState) :
      Step cfg st { st with showDietOption := false }
  | speechResult (t : String) (st : AppState) :
      Step cfg st { st with
        input := st.input ++ (if st.input == "" then "" else " ") ++ t,
        isRecording := false }
  | speechError (e : String) (st : AppState) :
      Step cfg st { st with
        error := some ("Speech recognition error: " ++ e), isRecording := false }
  | toggleRecording (st : AppState) :
      Step cfg st { st with isRecording := !st.isRecording }
  | welcomeTyped (st : AppState) :
      Step cfg st { st with messages := setLastText welcomeText st.messages }

/-- States reachable from a freshly mounted controller. -/
inductive Reachable (cfg : Config) : AppState → Prop where
  | init (sid ts : String) : Reachable cfg (initState cfg sid ts)
  | step {st st' : AppState} : Reachable cfg st → Step cfg st st' → Reachable cfg st'

/-- The typing animation of `typeMessage` (App.tsx lines 79-111): starting
from accumulator `acc`, each tick appends the next source character and
records the text written into the last message. Returns the sequence of
texts written, one per tick. -/
def tickStates (acc : List Char) : List Char → List (List Char)
  | [] => []
  | c :: rest => (acc ++ [c]) :: tickStates (acc ++ [c]) rest

/-- The full tick sequence of `typeMessage fullText`: `currentText` starts
empty and grows by one source character per tick. -/
def revealStates (fullText : List Char) : List (List Char) :=
  tickStates [] fullText

/-- The text held by the last message once `typeMessage` resolves: the final
tick state, or the untouched placeholder text for an empty source. -/
def revealFinal (fullText : List Char) : List Char :=
  (revealStates fullText).getLastD []

theorem tickStates_length (acc rest : List Char) :
    (tickStates acc rest).length = rest.length := by
  induction rest generalizing acc with
  | nil => rfl
  | cons c cs ih => simp [tickStates, ih]

theorem tickStates_getElem? (acc rest : List Char) (k : Nat) (hk : k < rest.length) :
    (tickStates acc rest)[k]? = some (acc ++ rest.take (k + 1)) := by
  induction rest generalizing acc k with
  | nil => simp at hk
  | cons c cs ih =>
    cases k with
    | zero => simp [tickStates]
    | succ k =>
      have hk' : k < cs.length := by simp at hk; omega
      have step : (tickStates acc (c :: cs))[k + 1]? = (tickStates (acc ++ [c]) cs)[k]? := by
        simp [tickStates]
      rw [step, ih (acc ++ [c]) k hk']
      simp [List.take_succ_cons]

theorem revealStates_getElem? (fullText : List Char) (k : Nat) (hk : k < fullText.length) :
    (revealStates fullText)[k]? = some (fullText.take (k + 1)) := by
  simp [revealStates, tickStates_getElem? [] fullText k hk]

theorem revealFinal_eq (fullText : List Char) : revealFinal fullText = fullText := by
  cases h : fullText with
  | nil => rfl
  | cons c cs =>
    have hlen : (revealStates (c :: cs)).length = cs.length + 1 := by
      simp [revealStates, tickStates_length]
    have hk : cs.length < (c :: cs).length := by simp
    have hget := revealStates_getElem? (c :: cs) cs.length hk
    have htake : (c :: cs).take (cs.length + 1) = c :: cs := by
      simp [List.take_length (c :: cs)]
    rw [htake] at hget
    unfold revealFinal
    rw [List.getLastD_eq_getLast? _ _, List.getLast?_eq_getElem? _]
    simp only [hlen, Nat.add_sub_cancel]
    rw [hget]
    rfl

/-! Branch characterisations of `handleResponse`, one per arm of the
if/else chain. -/

theorem handleResponse_questionBr (r : ChatResponse) (s : AppState) (q : String)
    (hq : r.question = some q) :
    handleResponse r s = (if q == "" then "No question received." else q, s) := by
  simp [handleResponse, hq]

theorem handleResponse_diagnosisBr (r : ChatResponse) (s : AppState) (d : Diagnosis)
    (hq : r.question = none) (hd : r.diagnosis = some d)
    (hh : strTruthy r.home_remedy = true) :
    handleResponse r s = (diagnosisText d ((r.home_remedy).getD ""),
      { s with chatMode := "Diet", condition := condFallback d.condition }) := by
  simp [handleResponse, hq, hd, hh]

theorem handleResponse_dietPlanBr (r : ChatResponse) (s : AppState)
    (hq : r.question = none) (hd : r.diagnosis = none)
    (hp : strTruthy r.diet_plan = true) :
    handleResponse r s = (dietPlanText ((r.diet_plan).getD ""),
      { s with chatMode := "Diagnosis", condition := "Unknown" }) := by
  simp [handleResponse, hq, hd, hp]

theorem handleResponse_inconclusive_someDiag (r : ChatResponse) (s : AppState)
    (d : Diagnosis) (hq : r.question = none) (hd : r.diagnosis = some d)
    (hh : strTruthy r.home_remedy = false) :
    handleResponse r s = (inconclusiveText, s) := by
  simp [handleResponse, hq, hd, hh]

theorem handleResponse_inconclusive_noDiag (r : ChatResponse) (s : AppState)
    (hq : r.question = none) (hd : r.diagnosis = none)
    (hp : strTruthy r.diet_plan = false) :
    handleResponse r s = (inconclusiveText, s) := by
  simp [handleResponse, hq, hd, hp]

/-- The state returned by `handleResponse` differs from its input at most in
`chatMode` and `condition`. -/
theorem handleResponse_shape (r : ChatResponse) (s : AppState) :
    ∃ m c, (handleResponse r s).2 = { s with chatMode := m, condition := c } := by
  unfold handleResponse
  cases hq : r.question with
  | some q => exact ⟨s.chatMode, s.condition, rfl⟩
  | none =>
    cases hd : r.diagnosis with
    | some d =>
      by_cases hh : strTruthy r.home_remedy = true
      · exact ⟨"Diet", condFallback d.condition, by simp [hh]⟩
      · exact ⟨s.chatMode, s.condition, by simp [hh]⟩
    | none =>
      by_cases hp : strTruthy r.diet_plan = true
      · exact ⟨"Diagnosis", "Unknown", by simp [hp]⟩
      · exact ⟨s.chatMode, s.condition, by simp [hp]⟩

/-- C1: for every raw server payload with the four optional fields, the
classification is total (a total Lean function) and deterministic, and
follows strict precedence: non-null `question` wins over everything; else
present `diagnosis` and `home_remedy` give the diagnosis branch; else absent
`diagnosis` with present `diet_plan` gives the diet-plan branch; else the
inconclusive advisory. In particular all four present gives the question
branch, and question null with diagnosis, home remedy and diet plan present
gives the diagnosis branch. Presence of a string field is the truthiness
test the code performs: non-null and non-empty. -/
theorem c1_classification_precedence (r : ChatResponse) :
    (r.question.isSome = true → classify r = .questionBr)
  ∧ (r.question = none → r.diagnosis.isSome = true → strTruthy r.home_remedy = true →
       classify r = .diagnosisBr)
  ∧ (r.question = none → r.diagnosis = none → strTruthy r.diet_plan = true →
       classify r = .dietPlanBr)
  ∧ (r.question = none →
       ¬(r.diagnosis.isSome = true ∧ strTruthy r.home_remedy = true) →
       ¬(r.diagnosis = none ∧ strTruthy r.diet_plan = true) →
       classify r = .inconclusiveBr)
  ∧ (r.question.isSome = true → r.diagnosis.isSome = true →
       strTruthy r.home_remedy = true → strTruthy r.diet_plan = true →
       classify r = .questionBr)
  ∧ (r.question = none → r.diagnosis.isSome = true → strTruthy r.home_remedy = true →
       strTruthy r.diet_plan = true → classify r = .diagnosisBr) := by
  refine ⟨fun h1 => ?_, fun h1 h2 h3 => ?_, fun h1 h2 h3 => ?_, fun h1 h2 h3 => ?_,
    fun h1 _ _ _ => ?_, fun h1 h2 h3 _ => ?_⟩
  · simp [classify, h1]
  · simp [classify, h1, h2, h3]
  · simp [classify, h1, h2, h3]
  · cases hd : r.diagnosis with
    | some d =>
      have hh : strTruthy r.home_remedy = false := by
        cases hhr : strTruthy r.home_remedy with
        | false => rfl
        | true => exact absurd ⟨by simp [hd], hhr⟩ h2
      simp [classify, h1, hd, hh]
    | none =>
      have hp : strTruthy r.diet_plan = false := by
        cases hdp : strTruthy r.diet_plan with
        | false => rfl
        | true => exact absurd ⟨hd, hdp⟩ h3
      simp [classify, h1, hd, hp]
  · simp [classify, h1]
  · simp [classify, h1, h2, h3]

/-- A sample payload with all four fields present (truthy). -/
def allFour : ChatResponse :=
  ⟨some "How long?", some ⟨some "Influenza", 0, [], [], [], []⟩, some "Rest", some "plan"⟩

/-- Concrete instantiation of the C1 theorem: with all four fields present
the question branch wins; dropping `question` hands the diagnosis branch the
win even though `diet_plan` is present. -/
theorem c1_witness :
    classify allFour = .questionBr ∧
    classify { allFour with question := none } = .diagnosisBr := by
  constructor
  · exact (c1_classification_precedence allFour).1 (by decide)
  · exact (c1_classification_precedence { allFour with question := none }).2.1
      rfl (by decide) (by decide)

/-! Sample values used by the concrete counterexamples and witnesses. -/

/-- The default endpoint configuration (App.tsx lines 72-73). -/
def cfg0 : Config :=
  ⟨"http://localhost:5000/api/chat", "http://localhost:5000/api/diet"⟩

/-- Arbitrary fresh identifiers for one turn. -/
def ids0 : TurnIds := ⟨"u1", "ts1", "b1", "ts2"⟩

/-- A freshly mounted controller. -/
def st0 : AppState := initState cfg0 "sid" "ts0"

/-- A controller state mid-way through a pending diet-mode submission:
`isLoading` is true and the mode ref holds `Diet` (reached while the awaited
diet request is in flight; the Enter key handler and the always-enabled diet
prompt button both call `sendMessage` in this state). -/
def loadingDietState : AppState :=
  { st0 with isLoading := true, chatMode := "Diet" }

/-- C2, counterexample: with a submission pending (`isLoading = true`) in
Diet mode, `sendMessage` is NOT refused — it issues a second request. The
guard on App.tsx line 184 applies its `isLoading` test only under
`chatMode.current === "Diagnosis"`. -/
theorem c2_counterexample :
    loadingDietState.isLoading = true ∧
    ((sendMessage cfg0 ids0 (.failure ⟨false, none⟩) loadingDietState).2).isSome = true := by
  constructor
  · rfl
  · decide

/-- C2, amended: while a submission is pending, a new submission is refused —
state unchanged, no request issued — only when the mode is `Diagnosis`; the
guard does not cover Diet mode. -/
theorem c2_single_flight_diagnosis_only (cfg : Config) (ids : TurnIds)
    (outcome : TransportOutcome) (st : AppState)
    (hload : st.isLoading = true) (hmode : st.chatMode = "Diagnosis") :
    sendMessage cfg ids outcome st = (st, none) := by
  have hg : guardRefuses st = true := by simp [guardRefuses, hload, hmode]
  simp [sendMessage, hg]

/-- Concrete instantiation of the amended C2: a loading Diagnosis-mode state
is refused. -/
theorem c2_witness :
    sendMessage cfg0 ids0 (.failure ⟨false, none⟩) { st0 with isLoading := true } =
      ({ st0 with isLoading := true }, none) :=
  c2_single_flight_diagnosis_only cfg0 ids0 _ _ rfl rfl

/-- A diagnosis payload whose `home_remedy` is absent: it classifies as
inconclusive (branch 2 needs `home_remedy`, branch 3 needs `diagnosis`
absent). -/
def diagNoRemedy : ChatResponse :=
  ⟨none, some ⟨some "Influenza", 0, [], [], [], []⟩, none, none⟩

/-- An idle state with text entered, so the guard passes. -/
def idleReady : AppState := { st0 with input := "hi" }

/-- C3, counterexample: a response with `question` null, `diagnosis` present
but `home_remedy` absent classifies as Inconclusive, yet after the reveal the
controller still shows the diet prompt: App.tsx line 262 tests only
`question === null && diagnosis` and never consults `home_remedy`. -/
theorem c3_counterexample :
    classify diagNoRemedy = .inconclusiveBr ∧
    (sendMessage cfg0 ids0 (.success diagNoRemedy) idleReady).1.showDietOption = true := by
  constructor
  · decide
  · decide

/-- The value taken by `showDietOption` after a guard-passing successful
turn: true when `question === null && diagnosis`, otherwise whatever survives
the mode dispatch (the Diet arm of lines 200-204 hides the prompt, the
Diagnosis arm leaves it alone, and `handleResponse` never touches it). -/
theorem sendMessage_success_showDietOption (cfg : Config) (ids : TurnIds)
    (resp : ChatResponse) (st : AppState) (hg : guardRefuses st = false) :
    (sendMessage cfg ids (.success resp) st).1.showDietOption =
      ((resp.question.isNone && resp.diagnosis.isSome) ||
        (if st.chatMode = "Diet" then false else st.showDietOption)) := by
  unfold sendMessage
  simp only [hg, Bool.false_eq_true, if_false]
  cases hq : resp.question with
  | some q =>
    rw [handleResponse_questionBr _ _ q hq]
    simp only [hq, Option.isNone_some, Bool.false_and, Bool.false_or]
    split_ifs with h1 h2 <;> simp_all
  | none =>
    cases hd : resp.diagnosis with
    | some d =>
      cases hh : strTruthy resp.home_remedy with
      | false =>
        rw [handleResponse_inconclusive_someDiag _ _ d hq hd hh]
        simp only [hq, hd, Option.isNone_none, Option.isSome_some, Bool.true_and]
        split_ifs with h1 h2 <;> simp_all
      | true =>
        rw [handleResponse_diagnosisBr _ _ d hq hd hh]
        simp only [hq, hd, Option.isNone_none, Option.isSome_some, Bool.true_and]
        split_ifs with h1 h2 <;> simp_all
    | none =>
      cases hp : strTruthy resp.diet_plan with
      | false =>
        rw [handleResponse_inconclusive_noDiag _ _ hq hd hp]
        simp only [hq, hd, Option.isNone_none, Option.isSome_none,
          Bool.and_false, Bool.false_or]
        split_ifs with h1 h2 <;> simp_all
      | true =>
        rw [handleResponse_dietPlanBr _ _ hq hd hp]
        simp only [hq, hd, Option.isNone_none, Option.isSome_none,
          Bool.and_false, Bool.false_or]
        split_ifs with h1 h2 <;> simp_all

/-- C3, amended: entering a turn with the prompt hidden, after a successful
turn the diet prompt is shown iff the response had `question` null and
`diagnosis` present — `home_remedy` (and hence the classified branch) is not
consulted, so the prompt also appears for inconclusive-classified responses
that carry a diagnosis without a home remedy. -/
theorem c3_diet_option_iff (cfg : Config) (ids : TurnIds) (resp : ChatResponse)
    (st : AppState) (hg : guardRefuses st = false) (hopt : st.showDietOption = false) :
    (sendMessage cfg ids (.success resp) st).1.showDietOption = true ↔
      (resp.question = none ∧ resp.diagnosis.isSome = true) := by
  rw [sendMessage_success_showDietOption cfg ids resp st hg, hopt]
  simp [Option.isNone_iff_eq_none]

/-- Concrete instantiation of the amended C3: a diagnosis-with-remedy
response makes the prompt appear. -/
theorem c3_witness :
    (sendMessage cfg0 ids0
      (.success ⟨none, some ⟨some "Flu", 0, [], [], [], []⟩, some "Rest", none⟩)
      idleReady).1.showDietOption = true := by
  rw [c3_diet_option_iff cfg0 ids0 _ idleReady (by decide) (by decide)]
  simp

/-- The request issued by any guard-passing submission: endpoint by mode,
session header, then the multipart fields in source order — file when set,
trimmed message when non-empty, condition when non-empty — and the 90-second
timeout. The transport outcome plays no role in what was sent. -/
theorem sendMessage_req (cfg : Config) (ids : TurnIds) (outcome : TransportOutcome)
    (st : AppState) (hg : guardRefuses st = false) :
    (sendMessage cfg ids outcome st).2 = some
      ⟨(if st.chatMode = "Diagnosis" then cfg.diagUrl
        else if st.chatMode = "Diet" then cfg.dietUrl else st.apiUrl),
       st.sessionId,
       ((match st.file with
         | some f => [("file", FormValue.fileV f)]
         | none => []) ++
        (if jsTrim st.input == "" then [] else [("message", FormValue.strV (jsTrim st.input))]) ++
        (if st.condition == "" then [] else [("condition", FormValue.strV st.condition)])),
       90000⟩ := by
  unfold sendMessage
  simp only [hg, Bool.false_eq_true, if_false]
  split_ifs with h1 h2 <;> simp_all

/-- A PDF attachment. -/
def pdfFile0 : FileAttachment := ⟨"report.pdf", "application/pdf"⟩

/-- A diet-plan payload. -/
def dietResp0 : ChatResponse := ⟨none, none, none, some "Eat light meals."⟩

/-- The controller right after the diet prompt appeared for an "Influenza"
diagnosis, with a file the user selected while the prompt is visible (the
file input is still enabled there: `isFileDisabled` only flips inside a
submission). -/
def dietPromptWithFile : AppState :=
  { st0 with chatMode := "Diet", condition := "Influenza",
             showDietOption := true, file := some pdfFile0 }

/-- C4, counterexample: a Diet-mode submission with an attachment set sends
it — the multipart body of the diet-endpoint request does contain a file
field. Nothing clears the attachment when the mode switches to Diet; only
the post-submission finally block clears it. -/
theorem c4_counterexample :
    (sendMessage cfg0 ids0 (.success dietResp0) dietPromptWithFile).2 =
      some ⟨"http://localhost:5000/api/diet", "sid",
            [("file", FormValue.fileV pdfFile0), ("condition", FormValue.strV "Influenza")],
            90000⟩ := by
  decide

/-- C4, amended: a Diet-mode submission is never refused by the guard and
its request carries the file field exactly when an attachment is set at
submission time: present attachments are included, and only an absent
attachment yields a body with no file field. -/
theorem c4_diet_file_field (cfg : Config) (ids : TurnIds)
    (outcome : TransportOutcome) (st : AppState) (hmode : st.chatMode = "Diet") :
    (∀ f, st.file = some f →
      ∃ req, (sendMessage cfg ids outcome st).2 = some req ∧
        ("file", FormValue.fileV f) ∈ req.fields)
  ∧ (st.file = none →
      ∃ req, (sendMessage cfg ids outcome st).2 = some req ∧
        ∀ v, ("file", v) ∉ req.fields) := by
  have hg : guardRefuses st = false := by
    simp [guardRefuses, hmode]
  have hreq := sendMessage_req cfg ids outcome st hg
  constructor
  · intro f hf
    rw [hf] at hreq
    exact ⟨_, hreq, by simp⟩
  · intro hf
    rw [hf] at hreq
    refine ⟨_, hreq, ?_⟩
    intro v hv
    simp only [List.nil_append, List.mem_append] at hv
    rcases hv with hv | hv <;> split at hv <;> simp_all

/-- Concrete instantiation of the amended C4: with no attachment set, the
auto-generated diet request has no file field. -/
theorem c4_witness :
    ∃ req, (sendMessage cfg0 ids0 (.success dietResp0)
        { dietPromptWithFile with file := none }).2 = some req ∧
      ∀ v, ("file", v) ∉ req.fields :=
  (c4_diet_file_field cfg0 ids0 (.success dietResp0)
    { dietPromptWithFile with file := none } rfl).2 rfl

/-- C5: every guard-passing submission — classified response or transport
failure alike — ends with the attachment cleared and the file input element
reset; the finally block leaves no path that keeps an attachment. (A
guard-refused call submits nothing and is not an attempt.) -/
theorem c5_attachment_cleared (cfg : Config) (ids : TurnIds)
    (outcome : TransportOutcome) (st : AppState) (hg : guardRefuses st = false) :
    (sendMessage cfg ids outcome st).1.file = none ∧
    (sendMessage cfg ids outcome st).1.fileInputValue = "" := by
  unfold sendMessage
  simp [hg]

/-- Concrete instantiation of C5: a timed-out submission that had an
attachment ends with the attachment cleared. -/
theorem c5_witness :
    (sendMessage cfg0 ids0 (.failure ⟨true, none⟩)
      { idleReady with file := some pdfFile0 }).1.file = none ∧
    (sendMessage cfg0 ids0 (.failure ⟨true, none⟩)
      { idleReady with file := some pdfFile0 }).1.fileInputValue = "" :=
  c5_attachment_cleared cfg0 ids0 _ _ (by decide)

/-- C6: for a source text of length N the animation performs exactly N
ticks; the k-th tick writes the length-(k+1) prefix of the source (so each
tick is one character longer than the previous); the final revealed text
equals the source exactly; and `tickStates` is structurally recursive, so
the animation terminates on every finite input. -/
theorem c6_reveal_monotonic_total (fullText : List Char) :
    (revealStates fullText).length = fullText.length
  ∧ (∀ k, k < fullText.length →
      (revealStates fullText)[k]? = some (fullText.take (k + 1)))
  ∧ (∀ k, k < fullText.length → (fullText.take (k + 1)).length = k + 1)
  ∧ revealFinal fullText = fullText := by
  refine ⟨?_, ?_, ?_, revealFinal_eq fullText⟩
  · simp [revealStates, tickStates_length]
  · exact fun k hk => revealStates_getElem? fullText k hk
  · intro k hk
    simp only [List.length_take]
    omega

/-- Concrete instantiation of C6 on a three-character text. -/
theorem c6_witness :
    (revealStates ['c', 'a', 't']).length = 3 ∧
    (revealStates ['c', 'a', 't'])[1]? = some ['c', 'a'] ∧
    revealFinal ['c', 'a', 't'] = ['c', 'a', 't'] := by
  have h := c6_reveal_monotonic_total ['c', 'a', 't']
  refine ⟨h.1, ?_, h.2.2.2⟩
  have h2 := h.2.1 1 (by decide)
  simpa using h2

/-- The timeout failure as axios delivers it: no response arrived. -/
def timeoutFailure : AxiosFailure := ⟨true, none⟩

/-- A non-timeout transport failure with no response. -/
def unreachableFailure : AxiosFailure := ⟨false, none⟩

/-- C7, counterexample: the catch block maps a timeout to the generic
message, identical to the message of any other no-response failure — the
code has no timeout-specific classification or message (App.tsx line 267
only reads `error.response?.data.detail`). -/
theorem c7_counterexample :
    failureMessage timeoutFailure = "An error occurred. Please try again." ∧
    failureMessage timeoutFailure = failureMessage unreachableFailure := by
  exact ⟨rfl, rfl⟩

/-- C7, amended: on any transport failure, timeout included, no assistant
message is appended (the log gains only the user message), the error banner
carries `failureMessage` (generic for a timeout, not timeout-specific),
loading ends and the attachment is cleared. -/
theorem c7_failure_path (cfg : Config) (ids : TurnIds) (e : AxiosFailure)
    (st : AppState) (hg : guardRefuses st = false) :
    (sendMessage cfg ids (.failure e) st).1.messages =
      st.messages ++ [⟨ids.userMsgId, st.input, true, ids.userTs⟩]
  ∧ (sendMessage cfg ids (.failure e) st).1.isLoading = false
  ∧ (sendMessage cfg ids (.failure e) st).1.file = none
  ∧ (sendMessage cfg ids (.failure e) st).1.error = some (failureMessage e) := by
  unfold sendMessage
  simp only [hg, Bool.false_eq_true, if_false]
  refine ⟨?_, ?_, ?_, ?_⟩ <;> first
    | trivial
    | (split_ifs <;> rfl)

/-- Concrete instantiation of the amended C7 at a timed-out first turn. -/
theorem c7_witness :
    (sendMessage cfg0 ids0 (.failure timeoutFailure) idleReady).1.messages =
      idleReady.messages ++ [⟨"u1", "hi", true, "ts1"⟩]
  ∧ (sendMessage cfg0 ids0 (.failure timeoutFailure) idleReady).1.isLoading = false
  ∧ (sendMessage cfg0 ids0 (.failure timeoutFailure) idleReady).1.file = none
  ∧ (sendMessage cfg0 ids0 (.failure timeoutFailure) idleReady).1.error =
      some "An error occurred. Please try again." :=
  c7_failure_path cfg0 ids0 timeoutFailure idleReady (by decide)

/-- A candidate file whose MIME type is not the accepted document type. -/
def pngFile0 : FileAttachment := ⟨"photo.png", "image/png"⟩

/-- C8, counterexample: the change handler stores a non-PDF candidate
unchanged and sets no error — there is no MIME validation in
`handleFileChange`; the only filter is the advisory `accept=".pdf"`
attribute on the input element, which does not constrain what arrives. -/
theorem c8_counterexample :
    (handleFileChange (some [pngFile0]) st0).file = some pngFile0 ∧
    (handleFileChange (some [pngFile0]) st0).error = none := by
  exact ⟨rfl, rfl⟩

/-- C8, amended: the change handler stores the first selected file
unconditionally, for every MIME type, and never sets an error; the prior
attachment is replaced, not preserved, on any selection. -/
theorem c8_stores_any_file (st : AppState) (f : FileAttachment)
    (fs : List FileAttachment) :
    (handleFileChange (some (f :: fs)) st).file = some f ∧
    (handleFileChange (some (f :: fs)) st).error = st.error := by
  exact ⟨rfl, rfl⟩

/-! Inversions of `classify`, used to reason from a branch back to the
payload fields. -/

/-- Splitting a true Boolean conjunction. -/
theorem bandSplit {a b : Bool} (h : (a && b) = true) : a = true ∧ b = true := by
  simp at h
  exact h

/-- Assembling a true Boolean conjunction. -/
theorem bandIntro {a b : Bool} (h1 : a = true) (h2 : b = true) : (a && b) = true := by
  simp [h1, h2]

theorem classify_questionBr_iff (r : ChatResponse) :
    classify r = .questionBr ↔ r.question.isSome = true := by
  unfold classify
  split_ifs with h1 h2 h3
  · exact iff_of_true rfl h1
  · exact iff_of_false (by simp) h1
  · exact iff_of_false (by simp) h1
  · exact iff_of_false (by simp) h1

theorem classify_diagnosisBr_iff (r : ChatResponse) :
    classify r = .diagnosisBr ↔
      (r.question = none ∧ r.diagnosis.isSome = true ∧
       strTruthy r.home_remedy = true) := by
  unfold classify
  split_ifs with h1 h2 h3
  · exact iff_of_false (by simp) (fun ⟨hq, _, _⟩ => by simp [hq] at h1)
  · exact iff_of_true rfl
      ⟨Option.not_isSome_iff_eq_none.mp h1,
       (bandSplit h2).1, (bandSplit h2).2⟩
  · exact iff_of_false (by simp)
      (fun ⟨_, hd, hh⟩ => h2 (bandIntro hd hh))
  · exact iff_of_false (by simp)
      (fun ⟨_, hd, hh⟩ => h2 (bandIntro hd hh))

theorem classify_dietPlanBr_iff (r : ChatResponse) :
    classify r = .dietPlanBr ↔
      (r.question = none ∧ r.diagnosis = none ∧ strTruthy r.diet_plan = true) := by
  unfold classify
  split_ifs with h1 h2 h3
  · exact iff_of_false (by simp) (fun ⟨hq, _, _⟩ => by simp [hq] at h1)
  · exact iff_of_false (by simp) (fun ⟨_, hd, _⟩ => by simp [hd] at h2)
  · refine iff_of_true rfl
      ⟨Option.not_isSome_iff_eq_none.mp h1,
       Option.isNone_iff_eq_none.mp (bandSplit h3).1,
       (bandSplit h3).2⟩
  · exact iff_of_false (by simp)
      (fun ⟨_, hd, hp⟩ => h3 (bandIntro (by simp [hd]) hp))

theorem classify_inconclusiveBr_iff (r : ChatResponse) :
    classify r = .inconclusiveBr ↔
      (r.question = none ∧
       ¬(r.diagnosis.isSome = true ∧ strTruthy r.home_remedy = true) ∧
       ¬(r.diagnosis = none ∧ strTruthy r.diet_plan = true)) := by
  unfold classify
  split_ifs with h1 h2 h3
  · exact iff_of_false (by simp) (fun ⟨hq, _, _⟩ => by simp [hq] at h1)
  · exact iff_of_false (by simp)
      (fun ⟨_, hnd, _⟩ => hnd ⟨(bandSplit h2).1, (bandSplit h2).2⟩)
  · exact iff_of_false (by simp)
      (fun ⟨_, _, hnp⟩ => hnp
        ⟨Option.isNone_iff_eq_none.mp (bandSplit h3).1,
         (bandSplit h3).2⟩)
  · exact iff_of_true rfl
      ⟨Option.not_isSome_iff_eq_none.mp h1,
       fun ⟨hds, hhr⟩ => h2 (bandIntro hds hhr),
       fun ⟨hdn, hdp⟩ => h3 (bandIntro (by simp [hdn]) hdp)⟩

/-- After a guard-passing successful turn, the mode ref holds whatever the
response-parsing branch set (the mode dispatch of lines 197-204 never writes
the ref, only reads it). -/
theorem sendMessage_success_chatMode (cfg : Config) (ids : TurnIds)
    (resp : ChatResponse) (st : AppState) (hg : guardRefuses st = false) :
    (sendMessage cfg ids (.success resp) st).1.chatMode =
      (handleResponse resp st).2.chatMode := by
  unfold sendMessage
  simp only [hg, Bool.false_eq_true, if_false]
  cases hq : resp.question with
  | some q =>
    simp only [handleResponse_questionBr _ _ q hq]
    split_ifs with h1 h2 h3 <;> simp_all
  | none =>
    cases hd : resp.diagnosis with
    | some d =>
      cases hh : strTruthy resp.home_remedy with
      | false =>
        simp only [handleResponse_inconclusive_someDiag _ _ d hq hd hh]
        split_ifs with h1 h2 h3 <;> simp_all
      | true =>
        simp only [handleResponse_diagnosisBr _ _ d hq hd hh]
        split_ifs with h1 h2 h3 <;> simp_all
    | none =>
      cases hp : strTruthy resp.diet_plan with
      | false =>
        simp only [handleResponse_inconclusive_noDiag _ _ hq hd hp]
        split_ifs with h1 h2 h3 <;> simp_all
      | true =>
        simp only [handleResponse_dietPlanBr _ _ hq hd hp]
        split_ifs with h1 h2 h3 <;> simp_all

/-- After a guard-passing successful turn, the condition ref holds whatever
the response-parsing branch set. -/
theorem sendMessage_success_condition (cfg : Config) (ids : TurnIds)
    (resp : ChatResponse) (st : AppState) (hg : guardRefuses st = false) :
    (sendMessage cfg ids (.success resp) st).1.condition =
      (handleResponse resp st).2.condition := by
  unfold sendMessage
  simp only [hg, Bool.false_eq_true, if_false]
  cases hq : resp.question with
  | some q =>
    simp only [handleResponse_questionBr _ _ q hq]
    split_ifs with h1 h2 h3 <;> simp_all
  | none =>
    cases hd : resp.diagnosis with
    | some d =>
      cases hh : strTruthy resp.home_remedy with
      | false =>
        simp only [handleResponse_inconclusive_someDiag _ _ d hq hd hh]
        split_ifs with h1 h2 h3 <;> simp_all
      | true =>
        simp only [handleResponse_diagnosisBr _ _ d hq hd hh]
        split_ifs with h1 h2 h3 <;> simp_all
    | none =>
      cases hp : strTruthy resp.diet_plan with
      | false =>
        simp only [handleResponse_inconclusive_noDiag _ _ hq hd hp]
        split_ifs with h1 h2 h3 <;> simp_all
      | true =>
        simp only [handleResponse_dietPlanBr _ _ hq hd hp]
        split_ifs with h1 h2 h3 <;> simp_all

/-- C9: after a diagnosis-branch response the mode is Diet and the pending
condition equals the diagnosis condition (the literal "Unknown" when the
server omitted it); after a diet-branch response the mode reverts to
Diagnosis and the condition resets to "Unknown" regardless of its prior
value; question-branch and inconclusive-branch responses change neither. -/
theorem c9_mode_condition (cfg : Config) (ids : TurnIds) (resp : ChatResponse)
    (st : AppState) (hg : guardRefuses st = false) :
    (classify resp = .diagnosisBr →
      (sendMessage cfg ids (.success resp) st).1.chatMode = "Diet" ∧
      ∀ d, resp.diagnosis = some d →
        ((∀ s, d.condition = some s → s ≠ "" →
            (sendMessage cfg ids (.success resp) st).1.condition = s)
         ∧ (d.condition = none →
            (sendMessage cfg ids (.success resp) st).1.condition = "Unknown")))
  ∧ (classify resp = .dietPlanBr →
      (sendMessage cfg ids (.success resp) st).1.chatMode = "Diagnosis" ∧
      (sendMessage cfg ids (.success resp) st).1.condition = "Unknown")
  ∧ ((classify resp = .questionBr ∨ classify resp = .inconclusiveBr) →
      (sendMessage cfg ids (.success resp) st).1.chatMode = st.chatMode ∧
      (sendMessage cfg ids (.success resp) st).1.condition = st.condition) := by
  have hcm := sendMessage_success_chatMode cfg ids resp st hg
  have hcc := sendMessage_success_condition cfg ids resp st hg
  refine ⟨fun hb => ?_, fun hb => ?_, fun hb => ?_⟩
  · obtain ⟨hq, hd, hh⟩ := (classify_diagnosisBr_iff resp).mp hb
    obtain ⟨d, hd'⟩ := Option.isSome_iff_exists.mp hd
    rw [handleResponse_diagnosisBr _ st d hq hd' hh] at hcm hcc
    refine ⟨by simpa using hcm, ?_⟩
    intro dd hdm
    have hdd : dd = d := by
      rw [hd'] at hdm
      exact (Option.some_inj.mp hdm).symm
    subst hdd
    constructor
    · intro s hs hne
      rw [hcc, hs]
      simpa [condFallback, beq_iff_eq] using fun habs => absurd habs hne
    · intro hnone
      rw [hcc, hnone]
      rfl
  · obtain ⟨hq, hd, hp⟩ := (classify_dietPlanBr_iff resp).mp hb
    rw [handleResponse_dietPlanBr _ st hq hd hp] at hcm hcc
    exact ⟨by simpa using hcm, by simpa using hcc⟩
  · rcases hb with hb | hb
    · obtain hq := (classify_questionBr_iff resp).mp hb
      obtain ⟨q, hq'⟩ := Option.isSome_iff_exists.mp hq
      rw [handleResponse_questionBr _ st q hq'] at hcm hcc
      exact ⟨hcm, hcc⟩
    · obtain ⟨hq, hnd, hnp⟩ := (classify_inconclusiveBr_iff resp).mp hb
      cases hd : resp.diagnosis with
      | some d =>
        have hh : strTruthy resp.home_remedy = false := by
          cases hhr : strTruthy resp.home_remedy with
          | false => rfl
          | true => exact absurd ⟨by simp [hd], hhr⟩ hnd
        rw [handleResponse_inconclusive_someDiag _ st d hq hd hh] at hcm hcc
        exact ⟨hcm, hcc⟩
      | none =>
        have hp : strTruthy resp.diet_plan = false := by
          cases hdp : strTruthy resp.diet_plan with
          | false => rfl
          | true => exact absurd ⟨hd, hdp⟩ hnp
        rw [handleResponse_inconclusive_noDiag _ st hq hd hp] at hcm hcc
        exact ⟨hcm, hcc⟩

/-- A full diagnosis-branch payload used to instantiate C9. -/
def diagResp0 : ChatResponse :=
  ⟨none, some ⟨some "Influenza", 0, [], [], [], []⟩, some "Rest and fluids", none⟩

/-- Concrete instantiation of C9: an "Influenza" diagnosis-branch response
switches the mode to Diet and stores the condition. -/
theorem c9_witness :
    (sendMessage cfg0 ids0 (.success diagResp0) idleReady).1.chatMode = "Diet" ∧
    (sendMessage cfg0 ids0 (.success diagResp0) idleReady).1.condition = "Influenza" := by
  have h := (c9_mode_condition cfg0 ids0 diagResp0 idleReady (by decide)).1 (by decide)
  exact ⟨h.1, (h.2 _ rfl).1 "Influenza" rfl (by decide)⟩

/-- The condition fallback of line 239 never yields the empty string. -/
theorem condFallback_ne_empty (o : Option String) : condFallback o ≠ "" := by
  cases o with
  | none => simp [condFallback]
  | some s =>
    by_cases h : s = ""
    · simp [condFallback, h]
    · simp [condFallback, beq_iff_eq, h]

/-- The response handler writes only non-empty strings into the condition
ref: the diagnosis branch writes `condFallback`, the diet branch writes
"Unknown", the others leave it alone. -/
theorem handleResponse_condition_ne (r : ChatResponse) (s : AppState)
    (h : s.condition ≠ "") : (handleResponse r s).2.condition ≠ "" := by
  unfold handleResponse
  cases r.question with
  | some q => exact h
  | none =>
    cases r.diagnosis with
    | some d =>
      cases hh : strTruthy r.home_remedy with
      | false => simpa [hh] using h
      | true => simpa [hh] using condFallback_ne_empty d.condition
    | none =>
      cases hp : strTruthy r.diet_plan with
      | false => simpa [hp] using h
      | true => simp [hp]

/-- A failed turn leaves the condition ref untouched. -/
theorem sendMessage_failure_condition (cfg : Config) (ids : TurnIds)
    (e : AxiosFailure) (st : AppState) (hg : guardRefuses st = false) :
    (sendMessage cfg ids (.failure e) st).1.condition = st.condition := by
  unfold sendMessage
  simp only [hg, Bool.false_eq_true, if_false]
  split_ifs <;> rfl

/-- `sendMessage` preserves non-emptiness of the condition ref for every
outcome, the guard-refused call included. -/
theorem sendMessage_condition_ne (cfg : Config) (ids : TurnIds)
    (outcome : TransportOutcome) (st : AppState) (h : st.condition ≠ "") :
    (sendMessage cfg ids outcome st).1.condition ≠ "" := by
  by_cases hg : guardRefuses st = true
  · simpa [sendMessage, hg] using h
  · have hg' : guardRefuses st = false := by
      cases hgb : guardRefuses st with
      | false => rfl
      | true => exact absurd hgb hg
    cases outcome with
    | failure e => rw [sendMessage_failure_condition cfg ids e st hg']; exact h
    | success resp =>
      rw [sendMessage_success_condition cfg ids resp st hg']
      exact handleResponse_condition_ne resp st h

/-- Invariant: in every reachable controller state the condition ref is a
non-empty string — it starts as "Unknown" and is only ever reassigned to
`condFallback` results or "Unknown". -/
theorem reachable_condition_ne (cfg : Config) (st : AppState)
    (h : Reachable cfg st) : st.condition ≠ "" := by
  induction h with
  | init sid ts => simp [initState]
  | step hr hstep ih =>
    cases hstep with
    | send ids outcome st => exact sendMessage_condition_ne _ _ _ _ ih
    | edit s st => exact ih
    | fileChange files st =>
      cases files with
      | none => exact ih
      | some fs => exact ih
    | declineDiet st => exact ih
    | speechResult t st => exact ih
    | speechError e st => exact ih
    | toggleRecording st => exact ih
    | welcomeTyped st => exact ih

/-- C10: in every reachable state the condition ref is non-empty (it starts
as "Unknown" and only ever receives non-empty strings), so every request a
submission issues — in either mode, the very first one included — carries
the condition form field with the current ref value. -/
theorem c10_condition_field (cfg : Config) (st : AppState)
    (h : Reachable cfg st) :
    st.condition ≠ "" ∧
    ∀ ids outcome req, (sendMessage cfg ids outcome st).2 = some req →
      ("condition", FormValue.strV st.condition) ∈ req.fields := by
  have hne := reachable_condition_ne cfg st h
  refine ⟨hne, ?_⟩
  intro ids outcome req hreq
  by_cases hg : guardRefuses st = true
  · simp [sendMessage, hg] at hreq
  · have hg' : guardRefuses st = false := by
      cases hgb : guardRefuses st with
      | false => rfl
      | true => exact absurd hgb hg
    rw [sendMessage_req cfg ids outcome st hg'] at hreq
    have hbeq : (st.condition == "") = false := by
      simp [beq_iff_eq, hne]
    obtain rfl := Option.some_inj.mp hreq.symm
    simp [hbeq]

/-- Concrete instantiation of C10: the state after typing "hi" into a fresh
controller is reachable, its condition ref is the non-empty "Unknown", and
the first diagnosis-mode request carries `condition="Unknown"`. -/
theorem c10_witness :
    idleReady.condition ≠ "" ∧
    ("condition", FormValue.strV "Unknown") ∈
      [("message", FormValue.strV "hi"), ("condition", FormValue.strV "Unknown")] := by
  have hreach : Reachable cfg0 idleReady :=
    Reachable.step (Reachable.init "sid" "ts0") (Step.edit "hi" st0)
  have h := c10_condition_field cfg0 idleReady hreach
  have hreq : (sendMessage cfg0 ids0 (.failure ⟨false, none⟩) idleReady).2 =
      some ⟨cfg0.diagUrl, "sid",
            [("message", FormValue.strV "hi"), ("condition", FormValue.strV "Unknown")],
            90000⟩ := by decide
  exact ⟨h.1, h.2 ids0 (.failure ⟨false, none⟩) _ hreq⟩

end SymptomAnalyzer
